import Mathlib

/-!
Verification of the GitMigrator provider-abstraction and migration-orchestration
component, shallowly embedded from the Python sources.

Conventions of the embedding:
* Python strings are Lean `String`s; `None` becomes `Option.none`.
* Subprocess exit codes are `Int` (Python return codes may be negative).
* The external world (HTTP responses, subprocess outcomes) is passed in as
  explicit parameters, so every function is a pure Lean function of the code's
  inputs plus the environment's responses.
* Python `dict` insertion (`results[k] = v`) is modelled by `dictInsert` on an
  association list, which updates an existing key in place and otherwise
  appends, exactly matching insertion-ordered `dict` semantics.
-/

/-- `providers/base.py` `Repository` dataclass.  The Python field `private` is
called `priv` here (`private` is a Lean keyword). -/
structure Repository where
  name : String
  owner : String
  description : String
  priv : Bool
  clone_url : String
  ssh_url : Option String := none
  web_url : Option String := none
  default_branch : Option String := none
  github_name : Option String := none
deriving DecidableEq, Repr

/-- Python `a or b` on an optional string `a`: `None` and `""` are falsy. -/
def pyOrStr (a : Option String) (b : String) : String :=
  match a with
  | none => b
  | some s => if s = "" then b else s

/-- `migration_engine.py` line 33: `target_name = repository.github_name or repository.name`. -/
def targetName (r : Repository) : String :=
  pyOrStr r.github_name r.name

/-- `migration_engine.py` lines 42-44 (and identically 49-51): the display key
of a repository in the result mapping. -/
def displayName (r : Repository) : String :=
  let base := r.owner ++ "/" ++ r.name
  if targetName r ≠ r.name then base ++ " → " ++ targetName r else base

/-- Insertion-ordered Python `dict` assignment `d[k] = v` on an association
list: overwrite in place if the key is present, else append. -/
def dictInsert (d : List (String × Bool)) (k : String) (v : Bool) :
    List (String × Bool) :=
  match d with
  | [] => [(k, v)]
  | (k', v') :: rest =>
    if k' = k then (k, v) :: rest else (k', v') :: dictInsert rest k v

/-- Outcome of one `_migrate_single_repository` call as seen by the batch loop:
either it returned a boolean, or it raised an exception (caught at lines 47-52). -/
inductive MigOutcome where
  | ret (b : Bool)
  | exn
deriving DecidableEq, Repr

/-- The boolean recorded in `results` for a given single-migration outcome:
the returned boolean, or `False` when an exception was caught. -/
def outcomeResult : MigOutcome → Bool
  | .ret b => b
  | .exn => false

/-- One iteration of the loop body of `migrate_repositories` (lines 32-52):
record the outcome under the repository's display key. -/
def migrateStep (results : List (String × Bool)) (r : Repository)
    (o : MigOutcome) : List (String × Bool) :=
  dictInsert results (displayName r) (outcomeResult o)

/-- The batch loop of `migrate_repositories`, with the outcome of the `i`-th
single migration supplied by the environment `f`. -/
def migrateFrom (f : Nat → MigOutcome) : Nat → List (String × Bool) →
    List Repository → List (String × Bool)
  | _, acc, [] => acc
  | i, acc, r :: rest => migrateFrom f (i + 1) (migrateStep acc r (f i)) rest

/-- `MigrationEngine.migrate_repositories` (lines 25-54).  The empty-list early
return at line 27 coincides with the empty fold. -/
def migrate_repositories (repos : List Repository) (f : Nat → MigOutcome) :
    List (String × Bool) :=
  migrateFrom f 0 [] repos

/-- `MigrationEngine._push_to_destination` (lines 137-164), as a function of
the two subprocess exit codes.  Result: `(reported success, tag push ran)`. -/
def push_to_destination (branchRc tagRc : Int) : Bool × Bool :=
  if branchRc ≠ 0 then (false, false) else (true, true)

/-- A concrete repository without a rename target, used by witnesses. -/
def sampleRepo : Repository :=
  { name := "repo", owner := "alice", description := "", priv := false,
    clone_url := "" }

/-- A concrete repository whose rename target is the empty string. -/
def sampleRepoEmptyRename : Repository :=
  { name := "repo", owner := "alice", description := "", priv := false,
    clone_url := "", github_name := some "" }

/-- Second and third concrete repositories for batch witnesses. -/
def sampleRepoB : Repository :=
  { name := "beta", owner := "alice", description := "", priv := false,
    clone_url := "" }

def sampleRepoC : Repository :=
  { name := "gamma", owner := "alice", description := "", priv := false,
    clone_url := "" }

/-- Filesystem-and-process state relevant to `_clone_and_push_repository`:
the current working directory and the set of existing directories. -/
structure Fs where
  cwd : String
  dirs : List String
deriving DecidableEq, Repr

/-- Environment responses consumed by one `_clone_and_push_repository` call:
whether `tempfile.mkdtemp` succeeds, whether an exception is raised before the
clone subprocess, the clone exit code, whether the clone created the repo
directory, and the remote-add / branch-push / tag-push exit codes. -/
structure CloneEnv where
  mkdtempOk : Bool
  preCloneExn : Bool
  cloneRc : Int
  cloneCreates : Bool
  addRc : Int
  branchRc : Int
  tagRc : Int
deriving DecidableEq, Repr

/-- `Path(temp_dir) / repository.name` (line 89). -/
def repoPath (tempDir name : String) : String := tempDir ++ "/" ++ name

/-- `os.chdir` (line 126). -/
def chdir (fs : Fs) (d : String) : Fs := { fs with cwd := d }

/-- `shutil.rmtree(temp_dir, ignore_errors=True)` (line 133): removes the
directory and everything under it. -/
def rmtree (fs : Fs) (d : String) : Fs :=
  { fs with dirs := fs.dirs.filter (fun x => !(decide (d.data <+: x.data))) }

/-- `os.path.exists` / `Path.exists`. -/
def pathExists (fs : Fs) (d : String) : Bool := decide (d ∈ fs.dirs)

/-- The `try` body of `_clone_and_push_repository` (lines 86-121), including
the `except` clause that converts any exception into `False`.  Returns the
state before the `finally` block together with the boolean result. -/
def cloneBody (s0 : Fs) (tempDir : String) (r : Repository) (e : CloneEnv) :
    Fs × Bool :=
  if e.mkdtempOk = false then (s0, false)
  else
    let s1 : Fs := { s0 with dirs := tempDir :: s0.dirs }
    if e.preCloneExn then (s1, false)
    else
      let s2 : Fs :=
        if e.cloneCreates then
          { s1 with dirs := repoPath tempDir r.name :: s1.dirs }
        else s1
      if e.cloneRc ≠ 0 then (s2, false)
      else if ¬ pathExists s2 (repoPath tempDir r.name) then (s2, false)
      else if e.addRc ≠ 0 then (s2, false)
      else (s2, (push_to_destination e.branchRc e.tagRc).1)

/-- `MigrationEngine._clone_and_push_repository` (lines 81-135): the `try`
body followed by the `finally` block, which restores the working directory
and removes the scratch directory when it was created and still exists. -/
def clone_and_push_repository (s0 : Fs) (tempDir : String) (r : Repository)
    (e : CloneEnv) : Fs × Bool :=
  let original_cwd := s0.cwd
  let step := cloneBody s0 tempDir r e
  let s1 := chdir step.1 original_cwd
  let s2 :=
    if e.mkdtempOk = true ∧ pathExists s1 tempDir = true then rmtree s1 tempDir
    else s1
  (s2, step.2)

/-- The character class of the validation regex in
`interactive_selector.py` line 259: `[a-zA-Z0-9._-]`. -/
def isAllowedRepoChar (c : Char) : Bool :=
  c.isAlpha || c.isDigit || c = '.' || c = '_' || c = '-'

/-- Python `s.startswith(p)`, character-wise. -/
def strStartsWith (s p : String) : Bool := p.data.isPrefixOf s.data

/-- Python `s.endswith(p)`, character-wise. -/
def strEndsWith (s p : String) : Bool := p.data.reverse.isPrefixOf s.data.reverse

/-- Drop the final character of a string. -/
def strDropLast (s : String) : String := String.mk s.data.dropLast

/-- Python `bool(re.match(r'^[a-zA-Z0-9._-]+$', s))`.  Python's `$` also
matches just before a single trailing newline, which this embedding keeps. -/
def regexFullMatchAllowed (s : String) : Bool :=
  let body := if strEndsWith s "\n" then strDropLast s else s
  decide (body ≠ "") && body.data.all isAllowedRepoChar

/-- `InteractiveSelector._is_valid_repo_name` (lines 244-259).  Note the code
rejects a leading dot, a leading hyphen and a trailing dot, but not a
trailing hyphen. -/
def is_valid_repo_name (name : String) : Bool :=
  if name = "" then false
  else if name.length > 100 then false
  else if strStartsWith name "." || strStartsWith name "-" || strEndsWith name "." then false
  else regexFullMatchAllowed name

/-- ASCII whitespace stripped by Python `str.strip()`. -/
def isPySpace (c : Char) : Bool :=
  c = ' ' || c = '\t' || c = '\n' || c = '\r' || c = '\x0b' || c = '\x0c'

/-- Python `s.strip()` (ASCII whitespace). -/
def pyStrip (s : String) : String :=
  String.mk (((s.data.dropWhile isPySpace).reverse.dropWhile isPySpace).reverse)

/-- `_rename_repositories_interface` lines 193-209: the `github_name`
recorded for one repository, as a function of its original name and of the
raw line the user typed. -/
def recordedGithubName (original rawInput : String) : String :=
  let new_name := pyStrip rawInput
  if new_name = "" then original
  else if is_valid_repo_name new_name then new_name
  else original

/-- The destination naming rule exactly as the claim states it: only
characters in the class, not starting or ending with a dot or a hyphen,
length at most 100.  Stated from the claim's words, for comparison with
`is_valid_repo_name`, which is embedded from the source. -/
def claimNamingRule (name : String) : Bool :=
  name.data.all isAllowedRepoChar &&
  !(strStartsWith name ".") && !(strStartsWith name "-") &&
  !(strEndsWith name ".") && !(strEndsWith name "-") &&
  decide (name.length ≤ 100)

/-- Transport-level result of one vendor API lookup call: either the parsed
response payload, or a raised `RequestException`/`GithubException`. -/
def LookupResp (α : Type) := Except Unit α

/-- Payload of a Gitea repository API response (required and optional keys,
as read by `GiteaSourceProvider._parse_repository`). -/
structure GiteaRepoData where
  name : String
  owner_login : String
  description : Option String := none
  priv : Option Bool := none
  clone_url : String
  ssh_url : Option String := none
  html_url : Option String := none
  default_branch : Option String := none
deriving DecidableEq, Repr

/-- `GiteaSourceProvider._parse_repository` (source/gitea.py lines 81-92). -/
def gitea_parse_repository (d : GiteaRepoData) : Repository :=
  { name := d.name, owner := d.owner_login,
    description := d.description.getD "", priv := d.priv.getD false,
    clone_url := d.clone_url, ssh_url := d.ssh_url, web_url := d.html_url,
    default_branch := some (d.default_branch.getD "main"), github_name := none }

/-- `GiteaSourceProvider.get_repository_info` (lines 65-74): any
`RequestException` from the GET or from `raise_for_status` becomes `None`. -/
def gitea_get_repository_info (resp : Except Unit GiteaRepoData) :
    Option Repository :=
  match resp with
  | .error _ => none
  | .ok d => some (gitea_parse_repository d)

/-- Attributes of a PyGithub repository object used by
`GitHubSourceProvider._parse_repository`. -/
structure GithubRepoData where
  name : String
  owner_login : String
  description : Option String := none
  priv : Bool
  clone_url : String
  ssh_url : String
  html_url : String
  default_branch : Option String := none
deriving DecidableEq, Repr

/-- `GitHubSourceProvider._parse_repository` (source/github.py lines 73-84). -/
def github_parse_repository (d : GithubRepoData) : Repository :=
  { name := d.name, owner := d.owner_login,
    description := pyOrStr d.description "", priv := d.priv,
    clone_url := d.clone_url, ssh_url := some d.ssh_url,
    web_url := some d.html_url,
    default_branch := some (pyOrStr d.default_branch "main"),
    github_name := none }

/-- `GitHubSourceProvider.get_repository_info` (lines 61-67): a
`GithubException` becomes `None`. -/
def github_get_repository_info (resp : Except Unit GithubRepoData) :
    Option Repository :=
  match resp with
  | .error _ => none
  | .ok d => some (github_parse_repository d)

/-- Payload of a GitLab project API response, as read by
`GitLabSourceProvider._parse_repository`. -/
structure GitLabRepoData where
  name : String
  namespace_kind : String
  namespace_path : String
  namespace_full_path : String
  description : Option String := none
  visibility : Option String := none
  http_url_to_repo : String
  ssh_url_to_repo : Option String := none
  web_url : Option String := none
  default_branch : Option String := none
deriving DecidableEq, Repr

/-- `GitLabSourceProvider._parse_repository` (source/gitlab.py lines 97-111). -/
def gitlab_parse_repository (d : GitLabRepoData) : Repository :=
  { name := d.name,
    owner := if d.namespace_kind = "user" then d.namespace_path
             else d.namespace_full_path,
    description := d.description.getD "",
    priv := decide (d.visibility = some "private"),
    clone_url := d.http_url_to_repo, ssh_url := d.ssh_url_to_repo,
    web_url := d.web_url,
    default_branch := some (d.default_branch.getD "main"), github_name := none }

/-- `GitLabSourceProvider.get_repository_info` (lines 79-90). -/
def gitlab_get_repository_info (resp : Except Unit GitLabRepoData) :
    Option Repository :=
  match resp with
  | .error _ => none
  | .ok d => some (gitlab_parse_repository d)

/-- Result of one `create_repository` call: the Python function either
returns a boolean together with the (possibly extended) set of repositories
existing under the destination identity, or raises `ProviderError`. -/
inductive CreateResult where
  | ret (b : Bool) (repos : List String)
  | providerError
deriving DecidableEq, Repr

/-- Response of the PyGithub `create_repo` call: success, a
`GithubException` carrying a status and a data payload, or some other
exception. -/
inductive GhResp where
  | ok
  | exc (status : Nat) (data : String)
  | otherExn
deriving DecidableEq, Repr

/-- Python `s.lower()` (ASCII). -/
def strToLower (s : String) : String := String.mk (s.data.map Char.toLower)

/-- Python `n in h` on strings: `n` occurs as a contiguous substring. -/
def listContainsSub (n h : List Char) : Bool :=
  h.tails.any (fun t => n.isPrefixOf t)

/-- `'already exists' in str(e.data).lower()` (destination/github.py line 57). -/
def dataHasAlreadyExists (data : String) : Bool :=
  listContainsSub ("already exists".data) (strToLower data).data

/-- `GitHubDestinationProvider.create_repository` (lines 33-67).  `probe` is
the result of the `repository_exists` existence check; `resp` is the
creation call's response. -/
def github_create_repository (repos : List String) (probe : Bool)
    (resp : GhResp) (target : String) : CreateResult :=
  if probe then .ret true repos
  else
    match resp with
    | .ok => .ret true (repos ++ [target])
    | .exc status data =>
      if status = 422 ∧ dataHasAlreadyExists data = true then .ret true repos
      else .providerError
    | .otherExn => .providerError

/-- Response of a `requests` POST: success, an HTTP error with a status, a
`RequestException` with no response object, or a non-`requests` exception. -/
inductive VendorResp where
  | ok
  | err (status : Nat) (body : String)
  | noResp
  | otherExn
deriving DecidableEq, Repr

/-- `GiteaDestinationProvider.create_repository` (lines 41-79).  `probe` is
the initial `repository_exists` check; `reprobe` is the second
`repository_exists` check performed on a 422 response. -/
def gitea_create_repository (repos : List String) (probe : Bool)
    (resp : VendorResp) (reprobe : Bool) (target : String) : CreateResult :=
  if probe then .ret true repos
  else
    match resp with
    | .ok => .ret true (repos ++ [target])
    | .err status _ =>
      if status = 409 then .ret true repos
      else if status = 422 then .ret reprobe repos
      else .providerError
    | .noResp => .providerError
    | .otherExn => .ret false repos

/-- `GitLabDestinationProvider.create_repository` (lines 51-89): a 400
response triggers the re-probe, a 409 is success, anything else raises. -/
def gitlab_create_repository (repos : List String) (probe : Bool)
    (resp : VendorResp) (reprobe : Bool) (target : String) : CreateResult :=
  if probe then .ret true repos
  else
    match resp with
    | .ok => .ret true (repos ++ [target])
    | .err status _ =>
      if status = 400 then .ret reprobe repos
      else if status = 409 then .ret true repos
      else .providerError
    | .noResp => .providerError
    | .otherExn => .ret false repos

/-- Whether a GitHub response is an already-exists conflict (422 whose data
mentions "already exists"). -/
def ghAlreadyExistsResp : GhResp → Bool
  | .exc s d => decide (s = 422) && dataHasAlreadyExists d
  | _ => false

/-- Whether a `requests` response has the given status. -/
def respStatusIs (s : Nat) : VendorResp → Bool
  | .err s' _ => decide (s' = s)
  | _ => false

/-- A well-behaved GitHub environment for one `create_repository` call:
the existence probe is sound, an existing repository is detected either by
the probe or by an already-exists conflict, and a reported conflict is
truthful. -/
def GhEnvOk (repos : List String) (target : String) (probe : Bool)
    (resp : GhResp) : Prop :=
  (probe = true → target ∈ repos) ∧
  (target ∈ repos → probe = true ∨ ghAlreadyExistsResp resp = true) ∧
  (ghAlreadyExistsResp resp = true → target ∈ repos)

/-- A well-behaved Gitea environment: sound probes, an existing repository
answered by the probe, a 409, or a 422 with a sound-and-complete re-probe,
and a truthful 409. -/
def GiteaEnvOk (repos : List String) (target : String) (probe : Bool)
    (resp : VendorResp) (reprobe : Bool) : Prop :=
  (probe = true → target ∈ repos) ∧
  (target ∈ repos → probe = true ∨ respStatusIs 409 resp = true ∨
    (respStatusIs 422 resp = true ∧ reprobe = true)) ∧
  (respStatusIs 409 resp = true → target ∈ repos) ∧
  (reprobe = true → target ∈ repos)

/-- A well-behaved GitLab environment (as for Gitea, with 400 in place of
422 as the re-probe trigger). -/
def GitLabEnvOk (repos : List String) (target : String) (probe : Bool)
    (resp : VendorResp) (reprobe : Bool) : Prop :=
  (probe = true → target ∈ repos) ∧
  (target ∈ repos → probe = true ∨ respStatusIs 409 resp = true ∨
    (respStatusIs 400 resp = true ∧ reprobe = true)) ∧
  (respStatusIs 409 resp = true → target ∈ repos) ∧
  (reprobe = true → target ∈ repos)

section EngineTheorems

/-- C3: a non-zero branch-push exit code makes the engine report failure and
skip the tag push entirely. -/
theorem branch_push_failure_skips_tags (branchRc tagRc : Int)
    (h : branchRc ≠ 0) :
    push_to_destination branchRc tagRc = (false, false) := by
  simp [push_to_destination, h]

theorem branch_push_failure_skips_tags_witness :
    (1 : Int) ≠ 0 ∧ push_to_destination 1 0 = (false, false) :=
  ⟨by decide, branch_push_failure_skips_tags 1 0 (by decide)⟩

/-- C4: a zero branch-push exit code makes the engine report success for
every tag-push exit code; the tag push does run, but its exit code never
changes the outcome. -/
theorem branch_push_success_ignores_tag_rc (tagRc : Int) :
    push_to_destination 0 tagRc = (true, true) := by
  simp [push_to_destination]

/-- C8: with `github_name` unset, the destination target name is the source
name, the display key is exactly `owner/name`, and a batch records exactly
that key. -/
theorem no_rename_display_and_target (r : Repository) (f : Nat → MigOutcome)
    (h : r.github_name = none) :
    targetName r = r.name ∧
    displayName r = r.owner ++ "/" ++ r.name ∧
    migrate_repositories [r] f = [(r.owner ++ "/" ++ r.name, outcomeResult (f 0))] := by
  have ht : targetName r = r.name := by simp [targetName, pyOrStr, h]
  refine ⟨ht, ?_, ?_⟩
  · simp [displayName, ht]
  · simp [migrate_repositories, migrateFrom, migrateStep, dictInsert,
      displayName, ht]

theorem no_rename_display_and_target_witness :
    targetName sampleRepo = "repo" ∧
    displayName sampleRepo = "alice/repo" ∧
    migrate_repositories [sampleRepo] (fun _ => .ret true) =
      [("alice/repo", true)] :=
  no_rename_display_and_target sampleRepo (fun _ => .ret true) rfl

/-- C10: an empty-string `github_name` is falsy in Python, so the engine
treats it exactly like an absent rename: original target name and plain
display key. -/
theorem empty_rename_treated_as_absent (r : Repository) (f : Nat → MigOutcome)
    (h : r.github_name = some "") :
    targetName r = r.name ∧
    displayName r = r.owner ++ "/" ++ r.name ∧
    migrate_repositories [r] f = [(r.owner ++ "/" ++ r.name, outcomeResult (f 0))] := by
  have ht : targetName r = r.name := by simp [targetName, pyOrStr, h]
  refine ⟨ht, ?_, ?_⟩
  · simp [displayName, ht]
  · simp [migrate_repositories, migrateFrom, migrateStep, dictInsert,
      displayName, ht]

theorem empty_rename_treated_as_absent_witness :
    targetName sampleRepoEmptyRename = "repo" ∧
    displayName sampleRepoEmptyRename = "alice/repo" ∧
    migrate_repositories [sampleRepoEmptyRename] (fun _ => .ret false) =
      [("alice/repo", false)] :=
  empty_rename_treated_as_absent sampleRepoEmptyRename (fun _ => .ret false) rfl

/-- Python dict assignment with an unused key appends the pair. -/
theorem dictInsert_not_mem :
    ∀ (d : List (String × Bool)) (k : String) (v : Bool),
      k ∉ d.map Prod.fst → dictInsert d k v = d ++ [(k, v)]
  | [], _, _, _ => rfl
  | (k', v') :: rest, k, v, h => by
    have hne : k' ≠ k := fun hk => h (by simp [hk])
    have hrest : k ∉ rest.map Prod.fst := fun hm => h (by simp [hm])
    simp [dictInsert, hne, dictInsert_not_mem rest k v hrest]

/-- The batch loop appends one keyed result per repository, in order, when
display names are fresh. -/
theorem migrateFrom_eq (f : Nat → MigOutcome) :
    ∀ (repos : List Repository) (i : Nat) (acc : List (String × Bool)),
      (repos.map displayName).Nodup →
      (∀ r ∈ repos, displayName r ∉ acc.map Prod.fst) →
      migrateFrom f i acc repos =
        acc ++ (repos.enumFrom i).map
          (fun p => (displayName p.2, outcomeResult (f p.1)))
  | [], i, acc, _, _ => by simp [migrateFrom]
  | r :: rest, i, acc, hnd, hdisj => by
    have h1 : displayName r ∉ acc.map Prod.fst := hdisj r (by simp)
    have hstep : migrateStep acc r (f i) =
        acc ++ [(displayName r, outcomeResult (f i))] :=
      dictInsert_not_mem acc _ _ h1
    have hnd' : (rest.map displayName).Nodup := (List.nodup_cons.mp hnd).2
    have hne : displayName r ∉ rest.map displayName := (List.nodup_cons.mp hnd).1
    have hdisj' : ∀ r' ∈ rest,
        displayName r' ∉ (acc ++ [(displayName r, outcomeResult (f i))]).map Prod.fst := by
      intro r' hr'
      simp only [List.map_append, List.mem_append, List.map_cons, List.map_nil,
        List.mem_singleton, not_or]
      refine ⟨hdisj r' (by simp [hr']), fun hEq => ?_⟩
      exact hne (hEq ▸ List.mem_map_of_mem displayName hr')
    rw [migrateFrom, hstep, migrateFrom_eq f rest (i + 1) _ hnd' hdisj']
    simp [List.enumFrom, List.append_assoc, migrateStep]

/-- C1 (amended with pairwise-distinct display names): the batch is processed
strictly sequentially in caller order, a failing or throwing repository does
not abort the batch, and the result mapping holds exactly one boolean per
repository, keyed by display name, in processing order. -/
theorem batch_sequential_per_repo_results (repos : List Repository)
    (f : Nat → MigOutcome) (h : (repos.map displayName).Nodup) :
    migrate_repositories repos f =
      repos.enum.map (fun p => (displayName p.2, outcomeResult (f p.1))) ∧
    (migrate_repositories repos f).length = repos.length := by
  have he := migrateFrom_eq f repos 0 [] h (by simp)
  have he' : migrate_repositories repos f =
      repos.enum.map (fun p => (displayName p.2, outcomeResult (f p.1))) := by
    simpa [migrate_repositories, List.enum] using he
  refine ⟨he', ?_⟩
  rw [he', List.length_map, List.enum_length]

theorem batch_sequential_per_repo_results_witness :
    migrate_repositories [sampleRepo, sampleRepoB, sampleRepoC]
        (fun i => if i = 1 then .exn else .ret true) =
      ([sampleRepo, sampleRepoB, sampleRepoC].enum.map
        (fun p => (displayName p.2,
          outcomeResult (if p.1 = 1 then .exn else .ret true)))) ∧
    (migrate_repositories [sampleRepo, sampleRepoB, sampleRepoC]
        (fun i => if i = 1 then .exn else .ret true)).length =
      ([sampleRepo, sampleRepoB, sampleRepoC] : List Repository).length :=
  batch_sequential_per_repo_results [sampleRepo, sampleRepoB, sampleRepoC]
    (fun i => if i = 1 then .exn else .ret true) (by decide)

/-- C1 counterexample: two batch entries with the same display name collapse
into a single dict entry — the first repository's `False` result is
overwritten, so a 2-repository batch returns a 1-entry mapping. -/
theorem batch_duplicate_display_overwrites :
    migrate_repositories [sampleRepo, sampleRepo]
        (fun i => if i = 0 then .ret false else .ret true) =
      [("alice/repo", true)] ∧
    ([sampleRepo, sampleRepo] : List Repository).length = 2 := by
  constructor
  · decide
  · rfl

/-- With `mkdtemp` failed, the body raises before creating anything and the
caught exception yields `False` with the state untouched. -/
theorem cloneBody_mkdtemp_false (s0 : Fs) (tempDir : String) (r : Repository)
    (e : CloneEnv) (h : e.mkdtempOk = false) :
    cloneBody s0 tempDir r e = (s0, false) := by
  simp [cloneBody, h]

/-- Once `mkdtemp` succeeded, every exit path of the body leaves the scratch
directory present (cleanup is the `finally` block's job). -/
theorem cloneBody_tempDir_mem (s0 : Fs) (tempDir : String) (r : Repository)
    (e : CloneEnv) (h : e.mkdtempOk = true) :
    tempDir ∈ (cloneBody s0 tempDir r e).1.dirs := by
  cases hp : e.preCloneExn <;> cases hc : e.cloneCreates <;>
    simp [cloneBody, h, hp, hc] <;> split_ifs <;> simp

/-- The body never changes the working directory (the subprocesses receive
`cwd=` arguments; the process itself does not `chdir`). -/
theorem cloneBody_cwd (s0 : Fs) (tempDir : String) (r : Repository)
    (e : CloneEnv) : (cloneBody s0 tempDir r e).1.cwd = s0.cwd := by
  cases hm : e.mkdtempOk <;> cases hp : e.preCloneExn <;>
    cases hc : e.cloneCreates <;> simp [cloneBody, hm, hp, hc] <;>
    split_ifs <;> rfl

/-- C2: after any single-repository transfer attempt — success, failure at
clone, remote-add or push, or an exception — the scratch directory (and the
clone inside it) no longer exists and the working directory equals its
pre-migration value. -/
theorem scratch_cleanup_frame (s0 : Fs) (tempDir : String) (r : Repository)
    (e : CloneEnv) (hfresh : ∀ d ∈ s0.dirs, ¬ tempDir.data <+: d.data) :
    ((clone_and_push_repository s0 tempDir r e).1).cwd = s0.cwd ∧
    tempDir ∉ ((clone_and_push_repository s0 tempDir r e).1).dirs ∧
    repoPath tempDir r.name ∉ ((clone_and_push_repository s0 tempDir r e).1).dirs := by
  have hall : ∀ d ∈ ((clone_and_push_repository s0 tempDir r e).1).dirs,
      ¬ tempDir.data <+: d.data := by
    intro d hd
    by_cases hm : e.mkdtempOk = true
    · have hmem : tempDir ∈ (cloneBody s0 tempDir r e).1.dirs :=
        cloneBody_tempDir_mem s0 tempDir r e hm
      have hcond : pathExists (chdir (cloneBody s0 tempDir r e).1 s0.cwd) tempDir = true := by
        simp [pathExists, chdir, hmem]
      simp only [clone_and_push_repository, hm, hcond, and_self, if_true,
        true_and] at hd
      simp only [rmtree, chdir, List.mem_filter, Bool.not_eq_true',
        decide_eq_false_iff_not] at hd
      exact hd.2
    · have hm' : e.mkdtempOk = false := by simpa using hm
      simp only [clone_and_push_repository, hm', Bool.false_eq_true, false_and,
        if_false, cloneBody_mkdtemp_false s0 tempDir r e hm', chdir] at hd
      exact hfresh d hd
  refine ⟨?_, ?_, ?_⟩
  · simp only [clone_and_push_repository]
    split_ifs <;> simp [rmtree, chdir]
  · intro hmem
    exact hall tempDir hmem (List.prefix_refl _)
  · intro hmem
    refine hall _ hmem ?_
    show tempDir.data <+: (tempDir ++ "/" ++ r.name).data
    simp only [String.data_append, List.append_assoc]
    exact List.prefix_append _ _

theorem scratch_cleanup_frame_witness :
    (∀ d ∈ (Fs.mk "/home" ["/home"]).dirs, ¬ ("/tmp/mig".data <+: d.data)) ∧
    ((clone_and_push_repository (Fs.mk "/home" ["/home"]) "/tmp/mig" sampleRepo
        (CloneEnv.mk true false 1 false 0 0 0)).1).cwd = "/home" ∧
    "/tmp/mig" ∉ ((clone_and_push_repository (Fs.mk "/home" ["/home"]) "/tmp/mig"
        sampleRepo (CloneEnv.mk true false 1 false 0 0 0)).1).dirs ∧
    repoPath "/tmp/mig" sampleRepo.name ∉
      ((clone_and_push_repository (Fs.mk "/home" ["/home"]) "/tmp/mig"
        sampleRepo (CloneEnv.mk true false 1 false 0 0 0)).1).dirs :=
  ⟨by decide,
    scratch_cleanup_frame (Fs.mk "/home" ["/home"]) "/tmp/mig" sampleRepo
      (CloneEnv.mk true false 1 false 0 0 0) (by decide)⟩

end EngineTheorems

section SelectorAndLookupTheorems

/-- C5 counterexample: the user-entered rename target `a-` ends with a
hyphen, so it fails the claim's naming rule, yet the code's validator accepts
it and the rename interface records it as the destination name instead of
falling back to the original. -/
theorem rename_trailing_hyphen_recorded :
    is_valid_repo_name "a-" = true ∧
    recordedGithubName "orig" "a-" = "a-" ∧
    claimNamingRule "a-" = false := by
  refine ⟨by decide, by decide, by decide⟩

/-- C5 (amended): the code's validation rule does not reject a trailing
hyphen; with respect to that rule the fallback is exact: a rename target
failing `_is_valid_repo_name` is never used (the original name is recorded),
and every recorded name either equals the original or passes
`_is_valid_repo_name`. -/
theorem recorded_rename_valid_or_original (original rawInput : String) :
    (is_valid_repo_name (pyStrip rawInput) = false →
      recordedGithubName original rawInput = original) ∧
    (recordedGithubName original rawInput = original ∨
      is_valid_repo_name (recordedGithubName original rawInput) = true) := by
  constructor
  · intro hbad
    unfold recordedGithubName
    by_cases h1 : pyStrip rawInput = ""
    · simp [h1]
    · simp [h1, hbad]
  · unfold recordedGithubName
    by_cases h1 : pyStrip rawInput = ""
    · simp [h1]
    · by_cases h2 : is_valid_repo_name (pyStrip rawInput) = true
      · right
        simp [h1, h2]
      · left
        simp [h1, h2]

theorem recorded_rename_valid_or_original_witness :
    (is_valid_repo_name (pyStrip ".bad") = false →
      recordedGithubName "orig" ".bad" = "orig") ∧
    (recordedGithubName "orig" ".bad" = "orig" ∨
      is_valid_repo_name (recordedGithubName "orig" ".bad") = true) :=
  recorded_rename_valid_or_original "orig" ".bad"

/-- C9: for each source provider, the single-repository lookup turns a failed
transport request into absence (`none`) rather than an error, and turns a
successful response into the parsed `Repository` (whose name and owner come
from the payload). -/
theorem lookup_failure_is_absence :
    ((gitea_get_repository_info (.error ()) = none) ∧
      ∀ d : GiteaRepoData, gitea_get_repository_info (.ok d) =
          some (gitea_parse_repository d) ∧
        (gitea_parse_repository d).name = d.name ∧
        (gitea_parse_repository d).owner = d.owner_login) ∧
    ((github_get_repository_info (.error ()) = none) ∧
      ∀ d : GithubRepoData, github_get_repository_info (.ok d) =
          some (github_parse_repository d) ∧
        (github_parse_repository d).name = d.name ∧
        (github_parse_repository d).owner = d.owner_login) ∧
    ((gitlab_get_repository_info (.error ()) = none) ∧
      ∀ d : GitLabRepoData, gitlab_get_repository_info (.ok d) =
          some (gitlab_parse_repository d) ∧
        (gitlab_parse_repository d).name = d.name ∧
        (gitlab_parse_repository d).owner =
          (if d.namespace_kind = "user" then d.namespace_path
           else d.namespace_full_path)) :=
  ⟨⟨rfl, fun _ => ⟨rfl, rfl, rfl⟩⟩, ⟨rfl, fun _ => ⟨rfl, rfl, rfl⟩⟩,
    ⟨rfl, fun _ => ⟨rfl, rfl, rfl⟩⟩⟩

end SelectorAndLookupTheorems

section DestinationTheorems

/-- In a well-behaved GitHub environment, creating an already-existing
repository reports success and changes nothing. -/
theorem github_create_of_exists (repos : List String) (target : String)
    (p : Bool) (r : GhResp) (henv : GhEnvOk repos target p r)
    (hmem : target ∈ repos) :
    github_create_repository repos p r target = .ret true repos := by
  obtain ⟨hs, hd, ht⟩ := henv
  by_cases hp : p = true
  · simp [github_create_repository, hp]
  · have hp' : p = false := by simpa using hp
    rcases hd hmem with h | h
    · exact absurd h hp
    · cases r with
      | ok => simp [ghAlreadyExistsResp] at h
      | exc s d =>
        simp only [ghAlreadyExistsResp, Bool.and_eq_true, decide_eq_true_eq] at h
        simp [github_create_repository, hp', h.1, h.2]
      | otherExn => simp [ghAlreadyExistsResp] at h

/-- Calling the GitHub `create_repository` twice with the same target never
yields two repositories of that name, and a successful first call makes the
second a success without modification. -/
theorem github_create_idem (repos : List String) (target : String)
    (p₁ p₂ : Bool) (r₁ r₂ : GhResp) (b₁ : Bool) (s₁ : List String)
    (hc : repos.count target ≤ 1)
    (h₁ : GhEnvOk repos target p₁ r₁)
    (hcall : github_create_repository repos p₁ r₁ target = .ret b₁ s₁)
    (h₂ : GhEnvOk s₁ target p₂ r₂) :
    s₁.count target ≤ 1 ∧
    (b₁ = true → github_create_repository s₁ p₂ r₂ target = .ret true s₁) := by
  obtain ⟨hs1, hd1, ht1⟩ := h₁
  by_cases hp : p₁ = true
  · simp only [github_create_repository, hp, if_true, CreateResult.ret.injEq] at hcall
    obtain ⟨hb, hrepos⟩ := hcall
    subst hrepos
    exact ⟨hc, fun _ => github_create_of_exists repos target p₂ r₂ h₂ (hs1 hp)⟩
  · have hp' : p₁ = false := by simpa using hp
    cases r₁ with
    | ok =>
      simp only [github_create_repository, hp', Bool.false_eq_true, if_false,
        CreateResult.ret.injEq] at hcall
      obtain ⟨hb, hrepos⟩ := hcall
      subst hrepos
      have hnot : target ∉ repos := by
        intro hmem
        rcases hd1 hmem with h | h
        · exact hp h
        · simp [ghAlreadyExistsResp] at h
      have hcz : repos.count target = 0 := List.count_eq_zero_of_not_mem hnot
      have hmem1 : target ∈ repos ++ [target] := by simp
      refine ⟨?_, fun _ => github_create_of_exists _ target p₂ r₂ h₂ hmem1⟩
      simp [List.count_append, hcz]
    | exc s d =>
      by_cases hcf : s = 422 ∧ dataHasAlreadyExists d = true
      · simp only [github_create_repository, hp', Bool.false_eq_true, if_false] at hcall
        rw [if_pos hcf] at hcall
        injection hcall with hb hrepos
        subst hrepos
        have hmem : target ∈ repos := ht1 (by
          simp [ghAlreadyExistsResp, hcf.1, hcf.2])
        exact ⟨hc, fun _ => github_create_of_exists repos target p₂ r₂ h₂ hmem⟩
      · simp [github_create_repository, hp', hcf] at hcall
    | otherExn =>
      simp [github_create_repository, hp'] at hcall

/-- In a well-behaved Gitea environment, creating an already-existing
repository reports success and changes nothing. -/
theorem gitea_create_of_exists (repos : List String) (target : String)
    (p : Bool) (r : VendorResp) (reprobe : Bool)
    (henv : GiteaEnvOk repos target p r reprobe) (hmem : target ∈ repos) :
    gitea_create_repository repos p r reprobe target = .ret true repos := by
  obtain ⟨hs, hd, ht, hre⟩ := henv
  by_cases hp : p = true
  · simp [gitea_create_repository, hp]
  · have hp' : p = false := by simpa using hp
    rcases hd hmem with h | h | h
    · exact absurd h hp
    · cases r with
      | err s b =>
        simp only [respStatusIs, decide_eq_true_eq] at h
        simp [gitea_create_repository, hp', h]
      | ok => simp [respStatusIs] at h
      | noResp => simp [respStatusIs] at h
      | otherExn => simp [respStatusIs] at h
    · obtain ⟨h422, hrep⟩ := h
      cases r with
      | err s b =>
        simp only [respStatusIs, decide_eq_true_eq] at h422
        subst h422
        simp [gitea_create_repository, hp', hrep]
      | ok => simp [respStatusIs] at h422
      | noResp => simp [respStatusIs] at h422
      | otherExn => simp [respStatusIs] at h422

/-- Calling the Gitea `create_repository` twice with the same target never
yields two repositories, and a successful first call makes the second a
success without modification. -/
theorem gitea_create_idem (repos : List String) (target : String)
    (p₁ p₂ : Bool) (r₁ r₂ : VendorResp) (q₁ q₂ : Bool) (b₁ : Bool)
    (s₁ : List String)
    (hc : repos.count target ≤ 1)
    (h₁ : GiteaEnvOk repos target p₁ r₁ q₁)
    (hcall : gitea_create_repository repos p₁ r₁ q₁ target = .ret b₁ s₁)
    (h₂ : GiteaEnvOk s₁ target p₂ r₂ q₂) :
    s₁.count target ≤ 1 ∧
    (b₁ = true → gitea_create_repository s₁ p₂ r₂ q₂ target = .ret true s₁) := by
  obtain ⟨hs1, hd1, ht1, hre1⟩ := h₁
  by_cases hp : p₁ = true
  · simp only [gitea_create_repository, hp, if_true, CreateResult.ret.injEq] at hcall
    obtain ⟨hb, hrepos⟩ := hcall
    subst hrepos
    exact ⟨hc, fun _ => gitea_create_of_exists repos target p₂ r₂ q₂ h₂ (hs1 hp)⟩
  · have hp' : p₁ = false := by simpa using hp
    cases r₁ with
    | ok =>
      simp only [gitea_create_repository, hp', Bool.false_eq_true, if_false,
        CreateResult.ret.injEq] at hcall
      obtain ⟨hb, hrepos⟩ := hcall
      subst hrepos
      have hnot : target ∉ repos := by
        intro hmem
        rcases hd1 hmem with h | h | h
        · exact hp h
        · simp [respStatusIs] at h
        · simp [respStatusIs] at h
      have hcz : repos.count target = 0 := List.count_eq_zero_of_not_mem hnot
      have hmem1 : target ∈ repos ++ [target] := by simp
      refine ⟨?_, fun _ => gitea_create_of_exists _ target p₂ r₂ q₂ h₂ hmem1⟩
      simp [List.count_append, hcz]
    | err s b =>
      by_cases h409 : s = 409
      · simp only [gitea_create_repository, hp', Bool.false_eq_true, if_false,
          h409, if_true, CreateResult.ret.injEq] at hcall
        obtain ⟨hb, hrepos⟩ := hcall
        subst hrepos
        have hmem : target ∈ repos := ht1 (by simp [respStatusIs, h409])
        exact ⟨hc, fun _ => gitea_create_of_exists repos target p₂ r₂ q₂ h₂ hmem⟩
      · by_cases h422 : s = 422
        · simp only [gitea_create_repository, hp', Bool.false_eq_true, if_false] at hcall
          rw [if_neg h409, if_pos h422] at hcall
          injection hcall with hb hrepos
          subst hrepos
          refine ⟨hc, fun hb1 => ?_⟩
          have hq : q₁ = true := hb.trans hb1
          exact gitea_create_of_exists repos target p₂ r₂ q₂ h₂ (hre1 hq)
        · simp [gitea_create_repository, hp', h409, h422] at hcall
    | noResp =>
      simp [gitea_create_repository, hp'] at hcall
    | otherExn =>
      simp only [gitea_create_repository, hp', Bool.false_eq_true, if_false,
        CreateResult.ret.injEq] at hcall
      obtain ⟨hb, hrepos⟩ := hcall
      subst hrepos
      refine ⟨hc, fun hb1 => ?_⟩
      exact absurd (hb.trans hb1) Bool.false_ne_true

/-- In a well-behaved GitLab environment, creating an already-existing
repository reports success and changes nothing. -/
theorem gitlab_create_of_exists (repos : List String) (target : String)
    (p : Bool) (r : VendorResp) (reprobe : Bool)
    (henv : GitLabEnvOk repos target p r reprobe) (hmem : target ∈ repos) :
    gitlab_create_repository repos p r reprobe target = .ret true repos := by
  obtain ⟨hs, hd, ht, hre⟩ := henv
  by_cases hp : p = true
  · simp [gitlab_create_repository, hp]
  · have hp' : p = false := by simpa using hp
    rcases hd hmem with h | h | h
    · exact absurd h hp
    · cases r with
      | err s b =>
        simp only [respStatusIs, decide_eq_true_eq] at h
        subst h
        simp [gitlab_create_repository, hp']
      | ok => simp [respStatusIs] at h
      | noResp => simp [respStatusIs] at h
      | otherExn => simp [respStatusIs] at h
    · obtain ⟨h400, hrep⟩ := h
      cases r with
      | err s b =>
        simp only [respStatusIs, decide_eq_true_eq] at h400
        subst h400
        simp [gitlab_create_repository, hp', hrep]
      | ok => simp [respStatusIs] at h400
      | noResp => simp [respStatusIs] at h400
      | otherExn => simp [respStatusIs] at h400

/-- Calling the GitLab `create_repository` twice with the same target never
yields two repositories, and a successful first call makes the second a
success without modification. -/
theorem gitlab_create_idem (repos : List String) (target : String)
    (p₁ p₂ : Bool) (r₁ r₂ : VendorResp) (q₁ q₂ : Bool) (b₁ : Bool)
    (s₁ : List String)
    (hc : repos.count target ≤ 1)
    (h₁ : GitLabEnvOk repos target p₁ r₁ q₁)
    (hcall : gitlab_create_repository repos p₁ r₁ q₁ target = .ret b₁ s₁)
    (h₂ : GitLabEnvOk s₁ target p₂ r₂ q₂) :
    s₁.count target ≤ 1 ∧
    (b₁ = true → gitlab_create_repository s₁ p₂ r₂ q₂ target = .ret true s₁) := by
  obtain ⟨hs1, hd1, ht1, hre1⟩ := h₁
  by_cases hp : p₁ = true
  · simp only [gitlab_create_repository, hp, if_true, CreateResult.ret.injEq] at hcall
    obtain ⟨hb, hrepos⟩ := hcall
    subst hrepos
    exact ⟨hc, fun _ => gitlab_create_of_exists repos target p₂ r₂ q₂ h₂ (hs1 hp)⟩
  · have hp' : p₁ = false := by simpa using hp
    cases r₁ with
    | ok =>
      simp only [gitlab_create_repository, hp', Bool.false_eq_true, if_false,
        CreateResult.ret.injEq] at hcall
      obtain ⟨hb, hrepos⟩ := hcall
      subst hrepos
      have hnot : target ∉ repos := by
        intro hmem
        rcases hd1 hmem with h | h | h
        · exact hp h
        · simp [respStatusIs] at h
        · simp [respStatusIs] at h
      have hcz : repos.count target = 0 := List.count_eq_zero_of_not_mem hnot
      have hmem1 : target ∈ repos ++ [target] := by simp
      refine ⟨?_, fun _ => gitlab_create_of_exists _ target p₂ r₂ q₂ h₂ hmem1⟩
      simp [List.count_append, hcz]
    | err s b =>
      by_cases h400 : s = 400
      · simp only [gitlab_create_repository, hp', Bool.false_eq_true, if_false] at hcall
        rw [if_pos h400] at hcall
        injection hcall with hb hrepos
        subst hrepos
        refine ⟨hc, fun hb1 => ?_⟩
        have hq : q₁ = true := hb.trans hb1
        exact gitlab_create_of_exists repos target p₂ r₂ q₂ h₂ (hre1 hq)
      · by_cases h409 : s = 409
        · simp only [gitlab_create_repository, hp', Bool.false_eq_true, if_false] at hcall
          rw [if_neg h400, if_pos h409] at hcall
          injection hcall with hb hrepos
          subst hrepos
          have hmem : target ∈ repos := ht1 (by simp [respStatusIs, h409])
          exact ⟨hc, fun _ => gitlab_create_of_exists repos target p₂ r₂ q₂ h₂ hmem⟩
        · simp [gitlab_create_repository, hp', h400, h409] at hcall
    | noResp =>
      simp [gitlab_create_repository, hp'] at hcall
    | otherExn =>
      simp only [gitlab_create_repository, hp', Bool.false_eq_true, if_false,
        CreateResult.ret.injEq] at hcall
      obtain ⟨hb, hrepos⟩ := hcall
      subst hrepos
      refine ⟨hc, fun hb1 => ?_⟩
      exact absurd (hb.trans hb1) Bool.false_ne_true

/-- C6: for each destination provider, `create_repository` is idempotent in
every well-behaved environment: an already-existing repository (found by the
existence probe, a 409, a 422-with-already-exists, or the post-422/400
re-probe) yields success with no modification, so two calls with the same
target never produce two repositories of that name and the second call of a
successful pair never reports failure. -/
theorem create_repository_idempotent :
    (∀ (repos : List String) (target : String) (p : Bool) (r : GhResp),
      GhEnvOk repos target p r → target ∈ repos →
      github_create_repository repos p r target = .ret true repos) ∧
    (∀ (repos : List String) (target : String) (p₁ p₂ : Bool)
        (r₁ r₂ : GhResp) (b₁ : Bool) (s₁ : List String),
      repos.count target ≤ 1 → GhEnvOk repos target p₁ r₁ →
      github_create_repository repos p₁ r₁ target = .ret b₁ s₁ →
      GhEnvOk s₁ target p₂ r₂ →
      s₁.count target ≤ 1 ∧
        (b₁ = true → github_create_repository s₁ p₂ r₂ target = .ret true s₁)) ∧
    (∀ (repos : List String) (target : String) (p : Bool) (r : VendorResp)
        (q : Bool),
      GiteaEnvOk repos target p r q → target ∈ repos →
      gitea_create_repository repos p r q target = .ret true repos) ∧
    (∀ (repos : List String) (target : String) (p₁ p₂ : Bool)
        (r₁ r₂ : VendorResp) (q₁ q₂ : Bool) (b₁ : Bool) (s₁ : List String),
      repos.count target ≤ 1 → GiteaEnvOk repos target p₁ r₁ q₁ →
      gitea_create_repository repos p₁ r₁ q₁ target = .ret b₁ s₁ →
      GiteaEnvOk s₁ target p₂ r₂ q₂ →
      s₁.count target ≤ 1 ∧
        (b₁ = true → gitea_create_repository s₁ p₂ r₂ q₂ target = .ret true s₁)) ∧
    (∀ (repos : List String) (target : String) (p : Bool) (r : VendorResp)
        (q : Bool),
      GitLabEnvOk repos target p r q → target ∈ repos →
      gitlab_create_repository repos p r q target = .ret true repos) ∧
    (∀ (repos : List String) (target : String) (p₁ p₂ : Bool)
        (r₁ r₂ : VendorResp) (q₁ q₂ : Bool) (b₁ : Bool) (s₁ : List String),
      repos.count target ≤ 1 → GitLabEnvOk repos target p₁ r₁ q₁ →
      gitlab_create_repository repos p₁ r₁ q₁ target = .ret b₁ s₁ →
      GitLabEnvOk s₁ target p₂ r₂ q₂ →
      s₁.count target ≤ 1 ∧
        (b₁ = true → gitlab_create_repository s₁ p₂ r₂ q₂ target = .ret true s₁)) :=
  ⟨github_create_of_exists, github_create_idem, gitea_create_of_exists,
    gitea_create_idem, gitlab_create_of_exists, gitlab_create_idem⟩

theorem create_repository_idempotent_witness :
    github_create_repository ["r"] true GhResp.ok "r" = .ret true ["r"] ∧
    gitea_create_repository ["r"] true VendorResp.ok true "r" = .ret true ["r"] ∧
    gitlab_create_repository ["r"] true VendorResp.ok true "r" = .ret true ["r"] := by
  refine ⟨?_, ?_, ?_⟩
  · exact create_repository_idempotent.1 ["r"] "r" true GhResp.ok
      ⟨fun _ => by decide, fun _ => Or.inl rfl,
        fun h => by simp [ghAlreadyExistsResp] at h⟩ (by decide)
  · exact create_repository_idempotent.2.2.1 ["r"] "r" true VendorResp.ok true
      ⟨fun _ => by decide, fun _ => Or.inl rfl,
        fun h => by simp [respStatusIs] at h, fun _ => by decide⟩ (by decide)
  · exact create_repository_idempotent.2.2.2.2.1 ["r"] "r" true VendorResp.ok true
      ⟨fun _ => by decide, fun _ => Or.inl rfl,
        fun h => by simp [respStatusIs] at h, fun _ => by decide⟩ (by decide)

/-- C7 counterexample: a Gitea 422 creation failure for a repository that
does not exist (for example an invalid name) makes `create_repository`
return the boolean `False` instead of raising `ProviderError`. -/
theorem gitea_nonconflict_returns_bool :
    gitea_create_repository [] false (VendorResp.err 422 "name invalid") false "x" =
      .ret false [] ∧
    "x" ∉ ([] : List String) := by
  exact ⟨by decide, by simp⟩

/-- C7 (amended): non-conflict creation failures raise `ProviderError`,
except that an ambiguous Gitea 422 or GitLab 400 response returns the
re-probe's boolean (hence `False` when the repository does not exist) and a
non-HTTP exception in Gitea/GitLab returns `False`; GitHub always raises. -/
theorem nonconflict_create_failures :
    (∀ (repos : List String) (s : Nat) (d target : String),
      ¬(s = 422 ∧ dataHasAlreadyExists d = true) →
      github_create_repository repos false (.exc s d) target = .providerError) ∧
    (∀ (repos : List String) (target : String),
      github_create_repository repos false .otherExn target = .providerError) ∧
    (∀ (repos : List String) (s : Nat) (b target : String) (q : Bool),
      s ≠ 409 → s ≠ 422 →
      gitea_create_repository repos false (.err s b) q target = .providerError) ∧
    (∀ (repos : List String) (target : String) (q : Bool),
      gitea_create_repository repos false .noResp q target = .providerError) ∧
    (∀ (repos : List String) (b target : String) (q : Bool),
      gitea_create_repository repos false (.err 422 b) q target = .ret q repos) ∧
    (∀ (repos : List String) (target : String) (q : Bool),
      gitea_create_repository repos false .otherExn q target = .ret false repos) ∧
    (∀ (repos : List String) (s : Nat) (b target : String) (q : Bool),
      s ≠ 400 → s ≠ 409 →
      gitlab_create_repository repos false (.err s b) q target = .providerError) ∧
    (∀ (repos : List String) (target : String) (q : Bool),
      gitlab_create_repository repos false .noResp q target = .providerError) ∧
    (∀ (repos : List String) (b target : String) (q : Bool),
      gitlab_create_repository repos false (.err 400 b) q target = .ret q repos) ∧
    (∀ (repos : List String) (target : String) (q : Bool),
      gitlab_create_repository repos false .otherExn q target = .ret false repos) := by
  refine ⟨?_, ?_, ?_, ?_, ?_, ?_, ?_, ?_, ?_, ?_⟩
  · intro repos s d target h
    simp [github_create_repository, h]
  · intro repos target
    simp [github_create_repository]
  · intro repos s b target q h409 h422
    simp [gitea_create_repository, h409, h422]
  · intro repos target q
    simp [gitea_create_repository]
  · intro repos b target q
    simp [gitea_create_repository]
  · intro repos target q
    simp [gitea_create_repository]
  · intro repos s b target q h400 h409
    simp [gitlab_create_repository, h400, h409]
  · intro repos target q
    simp [gitlab_create_repository]
  · intro repos b target q
    simp [gitlab_create_repository]
  · intro repos target q
    simp [gitlab_create_repository]

theorem nonconflict_create_failures_witness :
    github_create_repository [] false (GhResp.exc 500 "boom") "r" = .providerError ∧
    gitea_create_repository [] false (VendorResp.err 500 "") false "r" = .providerError ∧
    gitlab_create_repository [] false (VendorResp.err 500 "") false "r" = .providerError :=
  ⟨nonconflict_create_failures.1 [] 500 "boom" "r" (by decide),
    nonconflict_create_failures.2.2.1 [] 500 "" "r" false (by decide) (by decide),
    nonconflict_create_failures.2.2.2.2.2.2.1 [] 500 "" "r" false (by decide) (by decide)⟩

end DestinationTheorems
